import Mathlib

/-!
Verification of the SystemPart model of infi.clickhouse_orm
(system_models.py): a read-only ORM record over the server table
system.parts, together with SQL-building helper methods for partition
operations (DETACH, DROP, ATTACH, FREEZE, FETCH) and two query helpers
(get_active, all).

The embedding is shallow: each Python method becomes a Lean function
returning the delegated-call trace it issues on the external database
connection, paired with its Python return value wrapped in Except to
model assertion failures.  A method that raises an assertion error
before delegating yields an empty trace and Except.error.
-/

/-- Settings bag passed through to the connection: an open key/value
configuration, modelled as an association list. -/
abbrev Settings := List (String × String)

/-- One SystemPart record: typed fields matching the declaration order of
system_models.py (String fields as String, UInt8/UInt32/UInt64 and
DateTime fields as Nat, since the methods under verification never
compute with them). -/
structure SystemPart where
  database : String
  table : String
  engine : String
  partition : String
  name : String
  replicated : Nat
  active : Nat
  marks : Nat
  bytes : Nat
  modification_time : Nat
  remove_time : Nat
  refcount : Nat
deriving DecidableEq

/-- Modelled from the spec: the excluded Database collaborator
(database.py is not part of the sources).  Per the spec it provides a
db_name property and query execution; selectResult is its abstract
select behaviour, returning deserialized records for a query string. -/
structure Database where
  db_name : String
  selectResult : String → List SystemPart

/-- A Python-level argument that may or may not be a Database instance,
used to model the isinstance precondition checks. -/
inductive DbArg where
  | db (d : Database)
  | notDatabase

/-- Errors this layer can raise locally: the failure of a Python assert
statement, or the AttributeError raised when an attribute such as
db_name is read from an object that does not have it. -/
inductive PyError where
  | assertionError
  | attributeError
deriving DecidableEq

/-- One delegated call to Database.raw, recording the SQL text, the
settings bag passed through, and the stream flag. -/
structure RawCall where
  sql : String
  settings : Option Settings
  stream : Bool
deriving DecidableEq

/-- One delegated call to Database.select, recording the SQL text. -/
structure SelectCall where
  sql : String
deriving DecidableEq

/-- Python str.upper, modelled for ASCII strings: upper-case every
character.  Adequate here because the method only compares the result
against the ASCII operation names. -/
def pyUpper (s : String) : String := String.mk (s.data.map Char.toUpper)

namespace SystemPart

/-- The frozenset SystemPart.OPERATIONS, modelled as a list used only
through membership. -/
def OPERATIONS : List String := ["DETACH", "DROP", "ATTACH", "FREEZE", "FETCH"]

/-- The classmethod table_name, returning the system table identifier. -/
def table_name : String := "system.parts"

/-- Modelled from the spec: cls._fields is produced by the Model
metaclass in the excluded models.py; per the spec it is the ordered
list of declared field descriptors, whose first components are the
field names in declaration order. -/
def fieldNames : List String :=
  ["database", "table", "engine", "partition", "name", "replicated", "active",
   "marks", "bytes", "modification_time", "remove_time", "refcount"]

/-- The method _partition_operation_sql: upper-cases the operation
(str.upper modelled by pyUpper, adequate on the ASCII operation
names), asserts membership in OPERATIONS, builds the ALTER TABLE
statement, appends a FROM clause when from_part is present, executes it
via db.raw(sql, settings=settings, stream=False) and returns None (the
Python body has no return statement, so the Option String return value
is always none on success). -/
def _partition_operation_sql (self : SystemPart) (db : Database) (operation : String)
    (settings : Option Settings) (from_part : Option String) :
    List RawCall × Except PyError (Option String) :=
  let operationU := pyUpper operation
  if operationU ∈ OPERATIONS then
    let sql := "ALTER TABLE `" ++ db.db_name ++ "`.`" ++ self.table ++ "` "
      ++ operationU ++ " PARTITION \x27" ++ self.partition ++ "\x27"
    let sql2 := match from_part with
      | some fp => sql ++ " FROM " ++ fp
      | none => sql
    ([{ sql := sql2, settings := settings, stream := false }], Except.ok none)
  else
    ([], Except.error PyError.assertionError)

/-- The method detach. -/
def detach (self : SystemPart) (database : Database) (settings : Option Settings) :
    List RawCall × Except PyError (Option String) :=
  self._partition_operation_sql database ("DETACH") settings none

/-- The method drop. -/
def drop (self : SystemPart) (database : Database) (settings : Option Settings) :
    List RawCall × Except PyError (Option String) :=
  self._partition_operation_sql database ("DROP") settings none

/-- The method attach. -/
def attach (self : SystemPart) (database : Database) (settings : Option Settings) :
    List RawCall × Except PyError (Option String) :=
  self._partition_operation_sql database ("ATTACH") settings none

/-- The method freeze. -/
def freeze (self : SystemPart) (database : Database) (settings : Option Settings) :
    List RawCall × Except PyError (Option String) :=
  self._partition_operation_sql database ("FREEZE") settings none

/-- The method fetch: the zookeeper_path argument is mandatory in the
Python signature and is passed as from_part. -/
def fetch (self : SystemPart) (database : Database) (zookeeper_path : String)
    (settings : Option Settings) :
    List RawCall × Except PyError (Option String) :=
  self._partition_operation_sql database ("FETCH") settings (some zookeeper_path)

/-- The method _partition_operation_sql at an arbitrary Python argument:
the db parameter is untyped in the source and the method performs no
isinstance check, so the operation is upper-cased and asserted first,
and with a valid operation a non-Database argument then fails with an
AttributeError when db.db_name is read during SQL formatting, before
db.raw is called.  On a genuine Database argument this is the typed
_partition_operation_sql. -/
def _partition_operation_sql_arg (self : SystemPart) (db : DbArg)
    (operation : String) (settings : Option Settings) (from_part : Option String) :
    List RawCall × Except PyError (Option String) :=
  if pyUpper operation ∈ OPERATIONS then
    match db with
    | DbArg.db d => self._partition_operation_sql d operation settings from_part
    | DbArg.notDatabase => ([], Except.error PyError.attributeError)
  else
    ([], Except.error PyError.assertionError)

/-- The method detach at an arbitrary Python argument. -/
def detach_arg (self : SystemPart) (database : DbArg) (settings : Option Settings) :
    List RawCall × Except PyError (Option String) :=
  self._partition_operation_sql_arg database ("DETACH") settings none

/-- The method drop at an arbitrary Python argument. -/
def drop_arg (self : SystemPart) (database : DbArg) (settings : Option Settings) :
    List RawCall × Except PyError (Option String) :=
  self._partition_operation_sql_arg database ("DROP") settings none

/-- The method attach at an arbitrary Python argument. -/
def attach_arg (self : SystemPart) (database : DbArg) (settings : Option Settings) :
    List RawCall × Except PyError (Option String) :=
  self._partition_operation_sql_arg database ("ATTACH") settings none

/-- The method freeze at an arbitrary Python argument. -/
def freeze_arg (self : SystemPart) (database : DbArg) (settings : Option Settings) :
    List RawCall × Except PyError (Option String) :=
  self._partition_operation_sql_arg database ("FREEZE") settings none

/-- The method fetch at an arbitrary Python argument. -/
def fetch_arg (self : SystemPart) (database : DbArg) (zookeeper_path : String)
    (settings : Option Settings) :
    List RawCall × Except PyError (Option String) :=
  self._partition_operation_sql_arg database ("FETCH") settings (some zookeeper_path)

/-- The classmethod get_active: asserts the argument is a Database
instance, builds a SELECT over the declared field names filtered to
active parts of the given database, and returns the result of
database.select on it. -/
def get_active (database : DbArg) :
    List SelectCall × Except PyError (List SystemPart) :=
  match database with
  | DbArg.db d =>
      let field_names := String.intercalate (",") fieldNames
      let sql := "SELECT " ++ field_names ++ " FROM " ++ table_name
        ++ " WHERE active AND database=\x27" ++ d.db_name ++ "\x27"
      ([{ sql := sql }], Except.ok (d.selectResult sql))
  | DbArg.notDatabase => ([], Except.error PyError.assertionError)

/-- The classmethod all: like get_active but without the active filter. -/
def all (database : DbArg) :
    List SelectCall × Except PyError (List SystemPart) :=
  match database with
  | DbArg.db d =>
      let field_names := String.intercalate (",") fieldNames
      let sql := "SELECT " ++ field_names ++ " FROM " ++ table_name
        ++ " WHERE database=\x27" ++ d.db_name ++ "\x27"
      ([{ sql := sql }], Except.ok (d.selectResult sql))
  | DbArg.notDatabase => ([], Except.error PyError.assertionError)

end SystemPart

/-- A concrete part record used by witnesses and counterexamples. -/
def samplePart : SystemPart :=
  { database := "default", table := "events", engine := "MergeTree",
    partition := "201901", name := "201901_1_1_0", replicated := 0,
    active := 1, marks := 1, bytes := 1024, modification_time := 0,
    remove_time := 0, refcount := 1 }

/-- A concrete database connection used by witnesses and counterexamples. -/
def sampleDb : Database :=
  { db_name := "default", selectResult := fun _ => [] }

/-- Whether a method outcome is the assert-based precondition failure. -/
def isAssertionError (r : List RawCall × Except PyError (Option String)) : Bool :=
  match r.2 with
  | Except.error PyError.assertionError => true
  | _ => false

/-- C1: for every operation in DETACH, DROP, ATTACH, FREEZE and every part
record, the SQL text built by the partition operation builder with no
source path is exactly the ALTER TABLE ... PARTITION statement, with no
trailing FROM clause. -/
theorem c1_builder_sql_exact_no_from (self : SystemPart) (db : Database)
    (op : String) (s : Option Settings)
    (h : op ∈ ["DETACH", "DROP", "ATTACH", "FREEZE"]) :
    self._partition_operation_sql db op s none
      = ([{ sql := "ALTER TABLE `" ++ db.db_name ++ "`.`" ++ self.table
              ++ "` " ++ op ++ " PARTITION \x27" ++ self.partition ++ "\x27",
            settings := s, stream := false }], Except.ok none) := by
  simp only [List.mem_cons, List.not_mem_nil, or_false] at h
  rcases h with rfl | rfl | rfl | rfl <;> rfl

/-- Witness for C1 at the DROP operation on a concrete part. -/
theorem c1_builder_sql_exact_no_from_witness :
    ("DROP" ∈ ["DETACH", "DROP", "ATTACH", "FREEZE"])
    ∧ samplePart._partition_operation_sql sampleDb ("DROP") none none
      = ([{ sql := "ALTER TABLE `default`.`events` DROP PARTITION \x27201901\x27",
            settings := none, stream := false }], Except.ok none) :=
  ⟨by decide,
   c1_builder_sql_exact_no_from samplePart sampleDb ("DROP") none (by decide)⟩

/-- C2: evaluated at a concrete part, detach issues the raw call itself
and its Python return value is None, not the built SQL text: the method
body of _partition_operation_sql ends without a return statement even
though the docstrings promise the SQL query as return value. -/
theorem c2_detach_executes_and_returns_none :
    (samplePart.detach sampleDb none).1
      = [{ sql := "ALTER TABLE `default`.`events` DETACH PARTITION \x27201901\x27",
           settings := none, stream := false }]
    ∧ (samplePart.detach sampleDb none).2 = Except.ok none :=
  ⟨rfl, rfl⟩

/-- C3 counterexample: the lower-case operation name drop is not a member
of the allowed set, yet the builder raises no error and issues exactly
one delegated call, so the claim as stated fails at this input. -/
theorem c3_lowercase_not_rejected_counterexample :
    SystemPart.OPERATIONS.contains ("drop") = false
    ∧ (samplePart._partition_operation_sql sampleDb ("drop") none none).1.length = 1
    ∧ (samplePart._partition_operation_sql sampleDb ("drop") none none).2
        = Except.ok none :=
  ⟨rfl, rfl, rfl⟩

/-- C3 amended: for every operation name whose upper-cased form is not in
the allowed set, the builder fails with the assertion error, producing
no SQL and making no delegated call. -/
theorem c3_invalid_operation_rejected (self : SystemPart) (db : Database)
    (op : String) (s : Option Settings) (fp : Option String)
    (h : pyUpper op ∉ SystemPart.OPERATIONS) :
    self._partition_operation_sql db op s fp
      = ([], Except.error PyError.assertionError) := by
  simp only [SystemPart._partition_operation_sql, if_neg h]

/-- Witness for the amended C3 at the operation name TRUNCATE. -/
theorem c3_invalid_operation_rejected_witness :
    pyUpper ("TRUNCATE") ∉ SystemPart.OPERATIONS
    ∧ samplePart._partition_operation_sql sampleDb ("TRUNCATE") none none
      = ([], Except.error PyError.assertionError) :=
  ⟨by decide,
   c3_invalid_operation_rejected samplePart sampleDb ("TRUNCATE") none none
     (by decide)⟩

/-- C4: for every part and non-null source path, fetch builds the FETCH
statement ending in the FROM clause with that path, the path being a
mandatory argument of fetch passed through as the FROM source. -/
theorem c4_fetch_appends_from (self : SystemPart) (db : Database)
    (zp : String) (s : Option Settings) :
    self.fetch db zp s
      = ([{ sql := "ALTER TABLE `" ++ db.db_name ++ "`.`" ++ self.table
              ++ "` " ++ "FETCH" ++ " PARTITION \x27" ++ self.partition ++ "\x27"
              ++ " FROM " ++ zp,
            settings := s, stream := false }], Except.ok none) := rfl

/-- C5: get_active and all issue a single SELECT whose column list is
exactly the declared field names in declaration order and whose WHERE
clause includes the database filter, get_active additionally filtering
on active and all applying no active filter. -/
theorem c5_select_columns_and_where (d : Database) :
    (SystemPart.get_active (DbArg.db d)).1
      = [{ sql := "SELECT database,table,engine,partition,name,replicated,active,marks,bytes,modification_time,remove_time,refcount FROM system.parts WHERE active AND database=\x27"
             ++ d.db_name ++ "\x27" }]
    ∧ (SystemPart.all (DbArg.db d)).1
      = [{ sql := "SELECT database,table,engine,partition,name,replicated,active,marks,bytes,modification_time,remove_time,refcount FROM system.parts WHERE database=\x27"
             ++ d.db_name ++ "\x27" }] :=
  ⟨rfl, rfl⟩

/-- C6 counterexample: detach takes a connection argument yet performs
no precondition check: at a non-Database argument it fails with the
AttributeError raised when db_name is read, not with the precondition
(assert) failure the claim states, so the claim fails at this input. -/
theorem c6_wrappers_unchecked_counterexample :
    isAssertionError (samplePart.detach_arg DbArg.notDatabase none) = false
    ∧ samplePart.detach_arg DbArg.notDatabase none
        = ([], Except.error PyError.attributeError) :=
  ⟨rfl, rfl⟩

/-- C6 amended: get_active and all reject every non-Database argument
with the assert-based precondition failure before issuing any SELECT;
the partition-operation methods perform no such check and instead fail
with an AttributeError when db_name is read from the non-conforming
argument, still before any delegated call is made. -/
theorem c6_connection_check_scope (arg : DbArg)
    (h : ∀ d : Database, arg ≠ DbArg.db d)
    (self : SystemPart) (s : Option Settings) (zp : String) :
    SystemPart.get_active arg = ([], Except.error PyError.assertionError)
    ∧ SystemPart.all arg = ([], Except.error PyError.assertionError)
    ∧ self.detach_arg arg s = ([], Except.error PyError.attributeError)
    ∧ self.drop_arg arg s = ([], Except.error PyError.attributeError)
    ∧ self.attach_arg arg s = ([], Except.error PyError.attributeError)
    ∧ self.freeze_arg arg s = ([], Except.error PyError.attributeError)
    ∧ self.fetch_arg arg zp s = ([], Except.error PyError.attributeError) := by
  cases arg with
  | db d => exact absurd rfl (h d)
  | notDatabase => exact ⟨rfl, rfl, rfl, rfl, rfl, rfl, rfl⟩

/-- Witness for the amended C6 at a non-Database argument. -/
theorem c6_connection_check_scope_witness :
    SystemPart.get_active DbArg.notDatabase
      = ([], Except.error PyError.assertionError)
    ∧ SystemPart.all DbArg.notDatabase
      = ([], Except.error PyError.assertionError)
    ∧ samplePart.detach_arg DbArg.notDatabase none
        = ([], Except.error PyError.attributeError)
    ∧ samplePart.drop_arg DbArg.notDatabase none
        = ([], Except.error PyError.attributeError)
    ∧ samplePart.attach_arg DbArg.notDatabase none
        = ([], Except.error PyError.attributeError)
    ∧ samplePart.freeze_arg DbArg.notDatabase none
        = ([], Except.error PyError.attributeError)
    ∧ samplePart.fetch_arg DbArg.notDatabase ("/clickhouse/tables/01/events") none
        = ([], Except.error PyError.attributeError) :=
  c6_connection_check_scope DbArg.notDatabase (fun _ h => DbArg.noConfusion h)
    samplePart none ("/clickhouse/tables/01/events")

/-- C7: each convenience wrapper equals the general builder applied to
its fixed operation name, fetch passing its path as the FROM source and
the others passing none. -/
theorem c7_wrappers_equal_builder (self : SystemPart) (db : Database)
    (s : Option Settings) (zp : String) :
    self.detach db s = self._partition_operation_sql db ("DETACH") s none
    ∧ self.drop db s = self._partition_operation_sql db ("DROP") s none
    ∧ self.attach db s = self._partition_operation_sql db ("ATTACH") s none
    ∧ self.freeze db s = self._partition_operation_sql db ("FREEZE") s none
    ∧ self.fetch db zp s
        = self._partition_operation_sql db ("FETCH") s (some zp) :=
  ⟨rfl, rfl, rfl, rfl, rfl⟩

/-- C8: every method issues at most one delegated call, and the settings
value supplied to the builder is passed through to that call
unmodified. -/
theorem c8_at_most_one_call_settings_through (self : SystemPart)
    (db : Database) (op : String) (s : Option Settings) (fp : Option String)
    (arg : DbArg) :
    (self._partition_operation_sql db op s fp).1.length ≤ 1
    ∧ (∀ c, c ∈ (self._partition_operation_sql db op s fp).1 → c.settings = s)
    ∧ (SystemPart.get_active arg).1.length ≤ 1
    ∧ (SystemPart.all arg).1.length ≤ 1 := by
  by_cases h : pyUpper op ∈ SystemPart.OPERATIONS <;> cases arg <;>
    simp [SystemPart._partition_operation_sql, SystemPart.get_active,
      SystemPart.all, h]

/-- Witness for C8 at a DROP call with a concrete settings bag. -/
theorem c8_at_most_one_call_settings_through_witness :
    (samplePart._partition_operation_sql sampleDb ("DROP")
        (some [("max_threads", "4")]) none).1.length ≤ 1
    ∧ ({ sql := "ALTER TABLE `default`.`events` DROP PARTITION \x27201901\x27",
         settings := some [("max_threads", "4")], stream := false } : RawCall).settings
        = some [("max_threads", "4")] :=
  ⟨(c8_at_most_one_call_settings_through samplePart sampleDb ("DROP")
      (some [("max_threads", "4")]) none DbArg.notDatabase).1,
   (c8_at_most_one_call_settings_through samplePart sampleDb ("DROP")
      (some [("max_threads", "4")]) none DbArg.notDatabase).2.1
     { sql := "ALTER TABLE `default`.`events` DROP PARTITION \x27201901\x27",
       settings := some [("max_threads", "4")], stream := false }
     (by decide)⟩

/-- C9: the FETCH operation with an absent source path is not rejected:
the builder raises no error and the built SQL simply omits the FROM
clause. -/
theorem c9_fetch_missing_path_unchecked (self : SystemPart) (db : Database)
    (s : Option Settings) :
    self._partition_operation_sql db ("FETCH") s none
      = ([{ sql := "ALTER TABLE `" ++ db.db_name ++ "`.`" ++ self.table
              ++ "` " ++ "FETCH" ++ " PARTITION \x27" ++ self.partition ++ "\x27",
            settings := s, stream := false }], Except.ok none) := rfl

/-- C10: operation matching is case-insensitive: every operation name
whose upper-cased form is in the allowed set is accepted, and the built
SQL contains the upper-cased name. -/
theorem c10_operation_case_insensitive (self : SystemPart) (db : Database)
    (op : String) (s : Option Settings)
    (h : pyUpper op ∈ SystemPart.OPERATIONS) :
    self._partition_operation_sql db op s none
      = ([{ sql := "ALTER TABLE `" ++ db.db_name ++ "`.`" ++ self.table
              ++ "` " ++ pyUpper op ++ " PARTITION \x27" ++ self.partition ++ "\x27",
            settings := s, stream := false }], Except.ok none) := by
  simp only [SystemPart._partition_operation_sql, if_pos h]

/-- Witness for C10 at the lower-case operation name freeze, whose output
contains the upper-cased FREEZE. -/
theorem c10_operation_case_insensitive_witness :
    pyUpper ("freeze") ∈ SystemPart.OPERATIONS
    ∧ samplePart._partition_operation_sql sampleDb ("freeze") none none
      = ([{ sql := "ALTER TABLE `default`.`events` FREEZE PARTITION \x27201901\x27",
            settings := none, stream := false }], Except.ok none) :=
  ⟨by decide,
   c10_operation_case_insensitive samplePart sampleDb ("freeze") none
     (by decide)⟩
